import Mathlib

/-!
ClassLoaderExt (hotspot/share/classfile/classLoaderExt.hpp).

A shallow embedding of the static state and the inline member functions of
`ClassLoaderExt` and `ClassLoaderExt::Context`, followed by the properties of
the classpath registry that are settled on it.

* The static members become the fields of `State`; every `static void f(..)`
  becomes a function `State → State`, every query a function out of `State`.
* `jshort` and `int` values are integers (`Int`).  The header performs no
  arithmetic on them, only the comparisons `<` and `>=`, which C++ evaluates
  after promoting the `jshort` operand to `int`, hence exactly.  The ranges of
  the two types are `is_jshort` and `is_jint`.
* The preprocessor switches `INCLUDE_CDS` and `ASSERT` come from
  `utilities/macros.hpp` and `utilities/debug.hpp`; they are the fields of
  `Build`.
-/

namespace ClassLoaderExt

/-! ## Types and constants -/

/-- Build configuration: the preprocessor switches the header depends on.
`INCLUDE_CDS` selects the `#if INCLUDE_CDS`, `CDS_ONLY` and `NOT_CDS` text;
`ASSERT` says whether `assert` is compiled in (a debug build). -/
structure Build where
  INCLUDE_CDS : Bool
  ASSERT : Bool
deriving DecidableEq, Repr

/-- Range of the C++ type `jshort` (signed, 16 bits). -/
def is_jshort (v : Int) : Prop := -32768 ≤ v ∧ v ≤ 32767

/-- Range of the C++ type `int` (signed, 32 bits). -/
def is_jint (v : Int) : Prop := -2147483648 ≤ v ∧ v ≤ 2147483647

instance (v : Int) : Decidable (is_jshort v) := by
  unfold is_jshort; exact inferInstance

instance (v : Int) : Decidable (is_jint v) := by
  unfold is_jint; exact inferInstance

/-- The enumerator `max_classpath_index = 0x7fff` of `SomeConstants`. -/
def max_classpath_index : Int := 0x7fff

/-- Modelled from the spec: `ClassPathEntry` is declared in
`classfile/classLoader.hpp`, which is not among the sources; the spec describes
an entry as one location with a canonical path string. -/
structure ClassPathEntry where
  path : String
deriving DecidableEq, Repr

/-- The static state read and written by the header: the four static members of
`ClassLoaderExt` (declared under `#if INCLUDE_CDS`), the VM flags `UseAppCDS`,
`DumpSharedSpaces` and `UseSharedSpaces`, the warnings issued so far, and the
boot append entries kept by the base class `ClassLoader`.

The last field, `other_entries`, is modelled from the spec: the entries of the
registry that are not boot append entries (the platform, application and module
path entries).  They are registered by `ClassLoader` code that is not among the
sources; no function of the header reads or writes them, and they enter only
the registry's `length`. -/
structure State where
  _app_class_paths_start_index : Int
  _app_module_paths_start_index : Int
  _has_app_classes : Bool
  _has_platform_classes : Bool
  UseAppCDS : Bool
  DumpSharedSpaces : Bool
  UseSharedSpaces : Bool
  warnings : List String
  boot_append_entries : List ClassPathEntry
  other_entries : List ClassPathEntry
deriving DecidableEq, Repr

/-- The instance members `_class_name` and `_file_name` of
`ClassLoaderExt::Context`. -/
structure Context where
  _class_name : String
  _file_name : String
deriving DecidableEq, Repr

/-! ## Collaborators that live outside the header -/

/-- Modelled from the spec: `warning(..)` is declared in `utilities/debug.hpp`,
which is not among the sources; the spec speaks of "a recorded warning", so the
message is added at the end of the record of warnings. -/
def warning (msg : String) (s : State) : State :=
  { s with warnings := s.warnings ++ [msg] }

/-- Modelled from the spec: `ClassLoader::add_to_boot_append_entries` is defined
in `classfile/classLoader.cpp`, which is not among the sources; the spec says
the entry is appended to the boot segment, so it is added at the end of the
boot append entries. -/
def add_to_boot_append_entries (new_entry : ClassPathEntry) (s : State) : State :=
  { s with boot_append_entries := s.boot_append_entries ++ [new_entry] }

/-- The macro `assert(cond, msg)`: compiled in only when `ASSERT` is set; the
result says whether execution continues past it. -/
def assert (b : Build) (cond : Bool) : Bool :=
  if b.ASSERT then cond else true

/-! ## ClassLoaderExt::Context -/

/-- The body shared by the constructor and the destructor of `Context`:
under `INCLUDE_CDS`, when neither `DumpSharedSpaces` nor `UseSharedSpaces` is
set, assert that `_app_class_paths_start_index` is still `max_classpath_index`.
The result says whether execution continues. -/
def Context.check_not_using_cds (b : Build) (s : State) : Bool :=
  if b.INCLUDE_CDS then
    if !s.DumpSharedSpaces && !s.UseSharedSpaces then
      assert b (s._app_class_paths_start_index == max_classpath_index)
    else true
  else true

/-- The constructor `Context(class_name, file_name, TRAPS)`: stores the two
names; `none` when the assertion stops the VM. -/
def Context.new (b : Build) (s : State) (class_name file_name : String) :
    Option Context :=
  let ctx : Context := { _class_name := class_name, _file_name := file_name }
  if Context.check_not_using_cds b s then some ctx else none

/-- The accessor `Context::class_name()`. -/
def Context.class_name (ctx : Context) : String := ctx._class_name

/-- The accessor `Context::file_name()`. -/
def Context.file_name (ctx : Context) : String := ctx._file_name

/-- The member `Context::should_verify(int classpath_index)`:
`CDS_ONLY(return (classpath_index >= _app_class_paths_start_index);)`
`NOT_CDS(return false;)`. -/
def Context.should_verify (b : Build) (_ctx : Context) (s : State)
    (classpath_index : Int) : Bool :=
  if b.INCLUDE_CDS then decide (classpath_index ≥ s._app_class_paths_start_index)
  else false

/-- The destructor `~Context()`: `none` when the assertion stops the VM. -/
def Context.delete (b : Build) (s : State) (_ctx : Context) : Option Unit :=
  if Context.check_not_using_cds b s then some () else none

/-! ## ClassLoaderExt: static member functions -/

/-- The text of the warning issued by `append_boot_classpath`. -/
def boot_append_warning : String :=
  "UseAppCDS is disabled because bootstrap classpath has been appended"

/-- The function `append_boot_classpath(ClassPathEntry* new_entry)`. -/
def append_boot_classpath (b : Build) (new_entry : ClassPathEntry) (s : State) :
    State :=
  let s1 : State :=
    if b.INCLUDE_CDS then
      if s.UseAppCDS then
        { warning boot_append_warning s with UseAppCDS := false }
      else s
    else s
  add_to_boot_append_entries new_entry s1

/-- The getter `app_class_paths_start_index()`. -/
def app_class_paths_start_index (s : State) : Int :=
  s._app_class_paths_start_index

/-- The getter `app_module_paths_start_index()`. -/
def app_module_paths_start_index (s : State) : Int :=
  s._app_module_paths_start_index

/-- The setter `init_paths_start_index(jshort app_start)`. -/
def init_paths_start_index (app_start : Int) (s : State) : State :=
  { s with _app_class_paths_start_index := app_start }

/-- The setter `init_app_module_paths_start_index(jshort module_start)`. -/
def init_app_module_paths_start_index (module_start : Int) (s : State) : State :=
  { s with _app_module_paths_start_index := module_start }

/-- The query `is_boot_classpath(int classpath_index)`. -/
def is_boot_classpath (s : State) (classpath_index : Int) : Bool :=
  decide (classpath_index < s._app_class_paths_start_index)

/-- The query `has_platform_or_app_classes()`. -/
def has_platform_or_app_classes (s : State) : Bool :=
  s._has_app_classes || s._has_platform_classes

/-- The function `set_has_app_classes()`. -/
def set_has_app_classes (s : State) : State :=
  { s with _has_app_classes := true }

/-- The function `set_has_platform_classes()`. -/
def set_has_platform_classes (s : State) : State :=
  { s with _has_platform_classes := true }

/-! ## Sequences of calls -/

/-- One call of an operation whose body is in the header.  (The members
`record_result`, `read_manifest` and `read_raw_manifest` only forward to
functions defined in `classLoaderExt.cpp` and are not part of the model.) -/
inductive Op where
  | init_paths_start_index (app_start : Int)
  | init_app_module_paths_start_index (module_start : Int)
  | set_has_app_classes
  | set_has_platform_classes
  | append_boot_classpath (new_entry : ClassPathEntry)
  | Context_new (class_name file_name : String)
  | Context_should_verify (ctx : Context) (classpath_index : Int)
  | Context_delete (ctx : Context)
deriving DecidableEq, Repr

/-- The effect of one call on the static state; `none` when an assertion stops
the VM (only the constructor and destructor of `Context` can do so). -/
def step (b : Build) (op : Op) (s : State) : Option State :=
  match op with
  | .init_paths_start_index app_start => some (init_paths_start_index app_start s)
  | .init_app_module_paths_start_index module_start =>
      some (init_app_module_paths_start_index module_start s)
  | .set_has_app_classes => some (set_has_app_classes s)
  | .set_has_platform_classes => some (set_has_platform_classes s)
  | .append_boot_classpath new_entry => some (append_boot_classpath b new_entry s)
  | .Context_new class_name file_name =>
      (Context.new b s class_name file_name).map (fun _ => s)
  | .Context_should_verify _ _ => some s
  | .Context_delete ctx => (Context.delete b s ctx).map (fun _ => s)

/-- The effect of a sequence of calls, made from left to right. -/
def run (b : Build) : List Op → State → Option State
  | [], s => some s
  | op :: ops, s => (step b op s).bind (run b ops)

/-! ## The specification's vocabulary -/

/-- The specification's `requires_runtime_verification(index)`, as the
specification words it: `index >= app_start_index`. -/
def requires_runtime_verification (s : State) (index : Int) : Bool :=
  decide (index ≥ app_class_paths_start_index s)

/-- Modelled from the spec: the registry's `length`, the number of entries of
the whole registry that the two cut points partition: the boot append entries
together with the platform, application and module path entries.  Only the
number of entries enters the invariant, so the order in which the table lists
them is not modelled. -/
def length (s : State) : Nat :=
  s.boot_append_entries.length + s.other_entries.length

/-- The specification's registry invariant
`0 <= app_start_index <= module_start_index <= length`.  The specification
states it for cut points that have been set: while both still hold the sentinel
`max_classpath_index` it holds only for a registry of at least `0x7fff`
entries (`Invariant_unset_iff`). -/
def Invariant (s : State) : Prop :=
  0 ≤ app_class_paths_start_index s ∧
  app_class_paths_start_index s ≤ app_module_paths_start_index s ∧
  app_module_paths_start_index s ≤ (length s : Int)

instance (s : State) : Decidable (Invariant s) := by
  unfold Invariant; exact inferInstance

/-- Whether the argument of a cut-point setter keeps the two cut points ordered
and within the registry, in the state in which the call is made; every other
call qualifies. -/
def within_bounds (s : State) : Op → Bool
  | .init_paths_start_index app_start =>
      decide (0 ≤ app_start ∧ app_start ≤ app_module_paths_start_index s)
  | .init_app_module_paths_start_index module_start =>
      decide (app_class_paths_start_index s ≤ module_start ∧
        module_start ≤ (length s : Int))
  | _ => true

/-- Every call of the sequence is `within_bounds` in the state it is made in. -/
def all_within_bounds (b : Build) : List Op → State → Bool
  | [], _ => true
  | op :: ops, s =>
      within_bounds s op &&
        match step b op s with
        | some s1 => all_within_bounds b ops s1
        | none => true

/-! ## Concrete configurations and states used as examples -/

/-- A debug build with CDS. -/
def cds_debug_build : Build := { INCLUDE_CDS := true, ASSERT := true }

/-- A product build without CDS. -/
def no_cds_build : Build := { INCLUDE_CDS := false, ASSERT := false }

/-- The state in which both cut points still hold the sentinel
`max_classpath_index` and nothing has been registered or flagged. -/
def unset_state : State :=
  { _app_class_paths_start_index := max_classpath_index
    _app_module_paths_start_index := max_classpath_index
    _has_app_classes := false
    _has_platform_classes := false
    UseAppCDS := false
    DumpSharedSpaces := false
    UseSharedSpaces := false
    warnings := []
    boot_append_entries := []
    other_entries := [] }

/-- A state during an archive dump: both cut points at `0`, nothing
registered. -/
def dump_state : State :=
  { unset_state with
    _app_class_paths_start_index := 0
    _app_module_paths_start_index := 0
    DumpSharedSpaces := true }

/-- A state during an archive dump with a registry of three entries: one boot
append entry, one application entry and one module path entry; the application
cut point is `1` and the module cut point is `2`. -/
def dump_registry_state : State :=
  { unset_state with
    _app_class_paths_start_index := 1
    _app_module_paths_start_index := 2
    DumpSharedSpaces := true
    boot_append_entries := [{ path := "/boot/a.jar" }]
    other_entries := [{ path := "/app/x.jar" }, { path := "/mods/m.jar" }] }

/-- A state in which `UseAppCDS` is switched on. -/
def app_cds_state : State :=
  { unset_state with UseAppCDS := true, UseSharedSpaces := true }

/-- A state of a VM started with `UseAppCDS` on and no shared spaces in use. -/
def app_cds_flag_only_state : State :=
  { unset_state with UseAppCDS := true }

/-- An example entry. -/
def example_entry : ClassPathEntry := { path := "/agent/boot.jar" }

/-! ## Basic facts about sequences of calls -/

theorem run_nil (b : Build) (s : State) : run b [] s = some s := rfl

theorem run_cons (b : Build) (op : Op) (ops : List Op) (s : State) :
    run b (op :: ops) s = (step b op s).bind (run b ops) := rfl

/-- A call of `Context`'s constructor, destructor or `should_verify` leaves the
static state as it was. -/
theorem step_Context_state (b : Build) (s s1 : State) :
    (∀ cn fn, step b (.Context_new cn fn) s = some s1 → s1 = s) ∧
    (∀ ctx i, step b (.Context_should_verify ctx i) s = some s1 → s1 = s) ∧
    (∀ ctx, step b (.Context_delete ctx) s = some s1 → s1 = s) := by
  refine ⟨?_, ?_, ?_⟩
  · intro cn fn h
    simp only [step, Option.map_eq_some'] at h
    obtain ⟨_, _, rfl⟩ := h
    rfl
  · intro ctx i h
    simp only [step, Option.some.injEq] at h
    exact h.symm
  · intro ctx h
    simp only [step, Option.map_eq_some'] at h
    obtain ⟨_, _, rfl⟩ := h
    rfl

/-! ## C1: is_boot_classpath -/

/-- C1: in every state reached from any state by any sequence of calls,
`is_boot_classpath(i)` returns true if and only if
`i < app_class_paths_start_index()` in that state. -/
theorem C1_is_boot_classpath_iff (b : Build) (ops : List Op) (s0 s : State)
    (i : Int) (_h : run b ops s0 = some s) :
    is_boot_classpath s i = true ↔ i < app_class_paths_start_index s := by
  simp [is_boot_classpath, app_class_paths_start_index]

/-- C1 at a concrete sequence of calls: after the cut point is set to `3`,
index `2` is a boot index. -/
theorem C1_is_boot_classpath_iff_witness :
    is_boot_classpath
        (set_has_app_classes (init_paths_start_index 3 unset_state)) 2 = true ↔
      (2 : Int) <
        app_class_paths_start_index
          (set_has_app_classes (init_paths_start_index 3 unset_state)) :=
  C1_is_boot_classpath_iff cds_debug_build
    [.init_paths_start_index 3, .set_has_app_classes] unset_state
    (set_has_app_classes (init_paths_start_index 3 unset_state)) 2 rfl

/-! ## C2: should_verify forwards to requires_runtime_verification -/

/-- C2: in a build with CDS, `Context::should_verify(i)` returns exactly
`requires_runtime_verification(i)`, that is, true if and only if
`i >= app_class_paths_start_index()`, whatever the class name and file name of
the `Context`. -/
theorem C2_should_verify_forwards (b : Build) (ctx : Context) (s : State)
    (i : Int) (hcds : b.INCLUDE_CDS = true) :
    Context.should_verify b ctx s i = requires_runtime_verification s i ∧
    (Context.should_verify b ctx s i = true ↔
      i ≥ app_class_paths_start_index s) ∧
    ∀ ctx1 : Context,
      Context.should_verify b ctx1 s i = Context.should_verify b ctx s i := by
  simp [Context.should_verify, requires_runtime_verification,
    app_class_paths_start_index, hcds]

/-- C2 at a concrete input: cut point `3`, index `5`. -/
theorem C2_should_verify_forwards_witness :
    Context.should_verify cds_debug_build
        { _class_name := "Foo", _file_name := "foo.jar" }
        (init_paths_start_index 3 dump_state) 5 =
      requires_runtime_verification (init_paths_start_index 3 dump_state) 5 :=
  (C2_should_verify_forwards cds_debug_build
    { _class_name := "Foo", _file_name := "foo.jar" }
    (init_paths_start_index 3 dump_state) 5 rfl).1

/-! ## C3: should_verify while the cut point is unset -/

/-- C3, as worded, fails: with `_app_class_paths_start_index` at the sentinel
`max_classpath_index` in a build with CDS, the `int` index `0x7fff` is reported
as requiring verification. -/
theorem C3_counterexample :
    app_class_paths_start_index unset_state = max_classpath_index ∧
    is_jint 0x7fff ∧
    Context.should_verify cds_debug_build
      { _class_name := "Foo", _file_name := "foo.jar" } unset_state 0x7fff = true ∧
    requires_runtime_verification unset_state 0x7fff = true := by
  refine ⟨rfl, by decide, by decide, by decide⟩

/-- C3, amended: while `_app_class_paths_start_index` equals the sentinel
`max_classpath_index`, `should_verify` and `requires_runtime_verification`
return false for every index below `max_classpath_index`; for an index at or
above it, a build with CDS returns true, and a build without CDS returns false
for every index. -/
theorem C3_unset_should_verify (b : Build) (ctx : Context) (s : State) (i : Int)
    (hunset : app_class_paths_start_index s = max_classpath_index) :
    (i < max_classpath_index →
      Context.should_verify b ctx s i = false ∧
      requires_runtime_verification s i = false) ∧
    (max_classpath_index ≤ i →
      Context.should_verify b ctx s i = b.INCLUDE_CDS ∧
      requires_runtime_verification s i = true) ∧
    (b.INCLUDE_CDS = false → Context.should_verify b ctx s i = false) := by
  have hidx : s._app_class_paths_start_index = max_classpath_index := hunset
  refine ⟨?_, ?_, ?_⟩
  · intro hlt
    simp [Context.should_verify, requires_runtime_verification,
      app_class_paths_start_index, hidx, hlt]
  · intro hge
    cases hb : b.INCLUDE_CDS <;>
      simp [Context.should_verify, requires_runtime_verification,
        app_class_paths_start_index, hidx, hge, hb]
  · intro hb
    simp [Context.should_verify, hb]

/-- C3 (amended) at a concrete input: unset cut point, index `7`. -/
theorem C3_unset_should_verify_witness :
    Context.should_verify cds_debug_build
        { _class_name := "Foo", _file_name := "foo.jar" } unset_state 7 = false ∧
      requires_runtime_verification unset_state 7 = false :=
  (C3_unset_should_verify cds_debug_build
    { _class_name := "Foo", _file_name := "foo.jar" } unset_state 7 rfl).1
    (by decide)

/-! ## C4 and C5: setting a cut point twice -/

/-- C4, as worded, fails: `init_paths_start_index(1)` followed by
`init_paths_start_index(2)` does not fail and leaves the cut point at `2`, not
at `1`; likewise for `init_app_module_paths_start_index`. -/
theorem C4_counterexample :
    (1 : Int) ≠ 2 ∧ is_jshort 1 ∧ is_jshort 2 ∧
    (run cds_debug_build
        [.init_paths_start_index 1, .init_paths_start_index 2] dump_state).map
      app_class_paths_start_index = some 2 ∧
    (run cds_debug_build
        [.init_app_module_paths_start_index 1,
         .init_app_module_paths_start_index 2] dump_state).map
      app_module_paths_start_index = some 2 := by
  refine ⟨by decide, by decide, by decide, by decide, by decide⟩

/-- C4, amended: the cut-point setters overwrite.  For all values `a` and
`c`, `init_paths_start_index(a)` followed by `init_paths_start_index(c)` never
fails and leaves `app_class_paths_start_index()` equal to `c`, the state being
the one a single `init_paths_start_index(c)` gives; likewise for
`init_app_module_paths_start_index` and `app_module_paths_start_index()`. -/
theorem C4_setters_overwrite (b : Build) (a c : Int) (s : State) :
    run b [.init_paths_start_index a, .init_paths_start_index c] s =
      some (init_paths_start_index c s) ∧
    app_class_paths_start_index
      (init_paths_start_index c (init_paths_start_index a s)) = c ∧
    run b [.init_app_module_paths_start_index a,
        .init_app_module_paths_start_index c] s =
      some (init_app_module_paths_start_index c s) ∧
    app_module_paths_start_index
      (init_app_module_paths_start_index c
        (init_app_module_paths_start_index a s)) = c := by
  refine ⟨rfl, rfl, rfl, rfl⟩

/-- C5: setting a cut point again to the same value succeeds and gives the
state that a single call gives, for `init_paths_start_index` and for
`init_app_module_paths_start_index`. -/
theorem C5_same_value_idempotent (b : Build) (a : Int) (s : State) :
    run b [.init_paths_start_index a, .init_paths_start_index a] s =
      some (init_paths_start_index a s) ∧
    run b [.init_paths_start_index a] s = some (init_paths_start_index a s) ∧
    init_paths_start_index a (init_paths_start_index a s) =
      init_paths_start_index a s ∧
    run b [.init_app_module_paths_start_index a,
        .init_app_module_paths_start_index a] s =
      some (init_app_module_paths_start_index a s) ∧
    run b [.init_app_module_paths_start_index a] s =
      some (init_app_module_paths_start_index a s) ∧
    init_app_module_paths_start_index a
        (init_app_module_paths_start_index a s) =
      init_app_module_paths_start_index a s := by
  refine ⟨rfl, rfl, rfl, rfl, rfl, rfl⟩

/-! ## C6: the registry invariant -/

/-- While both cut points hold the sentinel `max_classpath_index`, the invariant
holds exactly when the registry has at least `0x7fff` entries. -/
theorem Invariant_unset_iff (s : State)
    (happ : app_class_paths_start_index s = max_classpath_index)
    (hmod : app_module_paths_start_index s = max_classpath_index) :
    Invariant s ↔ max_classpath_index ≤ (length s : Int) := by
  unfold Invariant
  rw [happ, hmod]
  constructor
  · intro h
    exact h.2.2
  · intro h
    exact ⟨by decide, le_refl _, h⟩

/-- From any state, the sentinel state included, setting the application cut
point to `a` and then the module cut point to `m` gives a state that satisfies
the invariant exactly when `0 <= a <= m <= length`. -/
theorem Invariant_after_setters (a m : Int) (s : State) :
    Invariant
        (init_app_module_paths_start_index m (init_paths_start_index a s)) ↔
      (0 ≤ a ∧ a ≤ m ∧ m ≤ (length s : Int)) :=
  Iff.rfl

/-- The cut points are not touched by `append_boot_classpath`, and the number
of registered entries grows by one. -/
theorem append_boot_classpath_registry (b : Build) (e : ClassPathEntry)
    (s : State) :
    app_class_paths_start_index (append_boot_classpath b e s) =
      app_class_paths_start_index s ∧
    app_module_paths_start_index (append_boot_classpath b e s) =
      app_module_paths_start_index s ∧
    length (append_boot_classpath b e s) = length s + 1 := by
  cases hb : b.INCLUDE_CDS <;> cases hu : s.UseAppCDS <;>
    simp [append_boot_classpath, add_to_boot_append_entries, warning,
      app_class_paths_start_index, app_module_paths_start_index, length, hb, hu] <;>
    omega

/-- One call that is `within_bounds` keeps the invariant. -/
theorem step_keeps_Invariant (b : Build) (op : Op) (s s1 : State)
    (hinv : Invariant s) (hwb : within_bounds s op = true)
    (hstep : step b op s = some s1) : Invariant s1 := by
  obtain ⟨h0, h1, h2⟩ := hinv
  cases op with
  | init_paths_start_index v =>
      simp only [step, Option.some.injEq] at hstep
      subst hstep
      simp only [within_bounds, decide_eq_true_eq] at hwb
      exact ⟨hwb.1, hwb.2, h2⟩
  | init_app_module_paths_start_index v =>
      simp only [step, Option.some.injEq] at hstep
      subst hstep
      simp only [within_bounds, decide_eq_true_eq] at hwb
      exact ⟨h0, hwb.1, hwb.2⟩
  | set_has_app_classes =>
      simp only [step, Option.some.injEq] at hstep
      subst hstep
      exact ⟨h0, h1, h2⟩
  | set_has_platform_classes =>
      simp only [step, Option.some.injEq] at hstep
      subst hstep
      exact ⟨h0, h1, h2⟩
  | append_boot_classpath e =>
      simp only [step, Option.some.injEq] at hstep
      subst hstep
      obtain ⟨ha, hm, hl⟩ := append_boot_classpath_registry b e s
      refine ⟨?_, ?_, ?_⟩
      · rw [ha]; exact h0
      · rw [ha, hm]; exact h1
      · rw [hm, hl]; push_cast; omega
  | Context_new cn fn =>
      rw [(step_Context_state b s s1).1 cn fn hstep]
      exact ⟨h0, h1, h2⟩
  | Context_should_verify ctx i =>
      rw [(step_Context_state b s s1).2.1 ctx i hstep]
      exact ⟨h0, h1, h2⟩
  | Context_delete ctx =>
      rw [(step_Context_state b s s1).2.2 ctx hstep]
      exact ⟨h0, h1, h2⟩

/-- A sequence of calls that are all `within_bounds` keeps the invariant. -/
theorem run_keeps_Invariant (b : Build) (ops : List Op) :
    ∀ s s1 : State, Invariant s → all_within_bounds b ops s = true →
      run b ops s = some s1 → Invariant s1 := by
  induction ops with
  | nil =>
      intro s s1 hinv _ hrun
      simp only [run, Option.some.injEq] at hrun
      subst hrun
      exact hinv
  | cons op ops ih =>
      intro s s1 hinv hwb hrun
      rw [run_cons] at hrun
      cases hstep : step b op s with
      | none => rw [hstep] at hrun; simp at hrun
      | some s2 =>
          rw [hstep] at hrun
          simp only [all_within_bounds, hstep, Bool.and_eq_true] at hwb
          exact ih s2 s1 (step_keeps_Invariant b op s s2 hinv hwb.1 hstep)
            hwb.2 hrun

/-- C6, as worded, fails: from a state that satisfies the invariant (a
registry of three entries, application cut point `1`, module cut point `2`),
`init_paths_start_index(-1)` makes the application cut point negative,
`init_paths_start_index(3)` puts it above the module cut point,
`init_app_module_paths_start_index(0)` puts the module cut point below the
application cut point, and `init_app_module_paths_start_index(4)` puts it
above the number of entries; each call succeeds. -/
theorem C6_counterexample :
    Invariant dump_registry_state ∧
    is_jshort (-1) ∧ is_jshort 3 ∧ is_jshort 0 ∧ is_jshort 4 ∧
    run cds_debug_build [.init_paths_start_index (-1)] dump_registry_state =
      some (init_paths_start_index (-1) dump_registry_state) ∧
    ¬ Invariant (init_paths_start_index (-1) dump_registry_state) ∧
    run cds_debug_build [.init_paths_start_index 3] dump_registry_state =
      some (init_paths_start_index 3 dump_registry_state) ∧
    ¬ Invariant (init_paths_start_index 3 dump_registry_state) ∧
    ¬ Invariant (init_app_module_paths_start_index 0 dump_registry_state) ∧
    ¬ Invariant (init_app_module_paths_start_index 4 dump_registry_state) := by
  refine ⟨by decide, by decide, by decide, by decide, by decide, rfl,
    by decide, rfl, by decide, by decide, by decide⟩

/-- C6, amended: from a state that satisfies
`0 <= app_class_paths_start_index <= app_module_paths_start_index <= length`,
the invariant holds after every sequence of calls in which each
`init_paths_start_index(v)` has `0 <= v <= app_module_paths_start_index` and
each `init_app_module_paths_start_index(v)` has
`app_class_paths_start_index <= v <= length` at the time of the call;
`append_boot_classpath` always keeps it, and a setter keeps it exactly when its
argument is within these bounds (the setters do not check them). -/
theorem C6_invariant_within_bounds (b : Build) (s : State) (hinv : Invariant s) :
    (∀ (ops : List Op) (s1 : State), all_within_bounds b ops s = true →
      run b ops s = some s1 → Invariant s1) ∧
    (∀ e : ClassPathEntry, Invariant (append_boot_classpath b e s)) ∧
    (∀ v : Int, Invariant (init_paths_start_index v s) ↔
      (0 ≤ v ∧ v ≤ app_module_paths_start_index s)) ∧
    (∀ v : Int, Invariant (init_app_module_paths_start_index v s) ↔
      (app_class_paths_start_index s ≤ v ∧ v ≤ (length s : Int))) := by
  refine ⟨?_, ?_, ?_, ?_⟩
  · intro ops s1 hwb hrun
    exact run_keeps_Invariant b ops s s1 hinv hwb hrun
  · intro e
    exact step_keeps_Invariant b (.append_boot_classpath e) s _ hinv rfl rfl
  · intro v
    obtain ⟨_, _, h2⟩ := hinv
    constructor
    · intro h
      exact ⟨h.1, h.2.1⟩
    · intro h
      exact ⟨h.1, h.2, h2⟩
  · intro v
    obtain ⟨h0, _, _⟩ := hinv
    constructor
    · intro h
      exact ⟨h.2.1, h.2.2⟩
    · intro h
      exact ⟨h0, h.1, h.2⟩

/-- C6 (amended) at a concrete sequence: from the registry of three entries
with cut points `1` and `2`, append a boot entry, then move the application
cut point to `2` and the module cut point to `3`; the registry then has four
entries. -/
theorem C6_invariant_within_bounds_witness :
    Invariant dump_registry_state ∧
    length
      (append_boot_classpath cds_debug_build example_entry
        dump_registry_state) = 4 ∧
    Invariant
      (init_app_module_paths_start_index 3
        (init_paths_start_index 2
          (append_boot_classpath cds_debug_build example_entry
            dump_registry_state))) :=
  ⟨by decide, by decide,
    (C6_invariant_within_bounds cds_debug_build dump_registry_state
        (by decide)).1
      [.append_boot_classpath example_entry,
       .init_paths_start_index 2,
       .init_app_module_paths_start_index 3]
      (init_app_module_paths_start_index 3
        (init_paths_start_index 2
          (append_boot_classpath cds_debug_build example_entry
            dump_registry_state)))
      (by decide) rfl⟩

/-! ## C7: the summary flags only ever go from false to true -/

/-- The summary flags are not touched by `append_boot_classpath`. -/
theorem append_boot_classpath_flags (b : Build) (e : ClassPathEntry)
    (s : State) :
    (append_boot_classpath b e s)._has_app_classes = s._has_app_classes ∧
    (append_boot_classpath b e s)._has_platform_classes =
      s._has_platform_classes := by
  cases hb : b.INCLUDE_CDS <;> cases hu : s.UseAppCDS <;>
    simp [append_boot_classpath, add_to_boot_append_entries, warning, hb, hu]

/-- One call never resets a summary flag. -/
theorem step_flags_mono (b : Build) (op : Op) (s s1 : State)
    (hstep : step b op s = some s1) :
    (s._has_app_classes = true → s1._has_app_classes = true) ∧
    (s._has_platform_classes = true → s1._has_platform_classes = true) := by
  cases op with
  | init_paths_start_index v =>
      simp only [step, Option.some.injEq] at hstep
      subst hstep
      exact ⟨id, id⟩
  | init_app_module_paths_start_index v =>
      simp only [step, Option.some.injEq] at hstep
      subst hstep
      exact ⟨id, id⟩
  | set_has_app_classes =>
      simp only [step, Option.some.injEq] at hstep
      subst hstep
      exact ⟨fun _ => rfl, id⟩
  | set_has_platform_classes =>
      simp only [step, Option.some.injEq] at hstep
      subst hstep
      exact ⟨id, fun _ => rfl⟩
  | append_boot_classpath e =>
      simp only [step, Option.some.injEq] at hstep
      subst hstep
      obtain ⟨ha, hp⟩ := append_boot_classpath_flags b e s
      rw [ha, hp]
      exact ⟨id, id⟩
  | Context_new cn fn =>
      rw [(step_Context_state b s s1).1 cn fn hstep]
      exact ⟨id, id⟩
  | Context_should_verify ctx i =>
      rw [(step_Context_state b s s1).2.1 ctx i hstep]
      exact ⟨id, id⟩
  | Context_delete ctx =>
      rw [(step_Context_state b s s1).2.2 ctx hstep]
      exact ⟨id, id⟩

/-- A sequence of calls never resets a summary flag. -/
theorem run_flags_mono (b : Build) (ops : List Op) :
    ∀ s s1 : State, run b ops s = some s1 →
      (s._has_app_classes = true → s1._has_app_classes = true) ∧
      (s._has_platform_classes = true → s1._has_platform_classes = true) := by
  induction ops with
  | nil =>
      intro s s1 hrun
      simp only [run, Option.some.injEq] at hrun
      subst hrun
      exact ⟨id, id⟩
  | cons op ops ih =>
      intro s s1 hrun
      rw [run_cons] at hrun
      cases hstep : step b op s with
      | none => rw [hstep] at hrun; simp at hrun
      | some s2 =>
          rw [hstep] at hrun
          obtain ⟨ha, hp⟩ := step_flags_mono b op s s2 hstep
          obtain ⟨ha2, hp2⟩ := ih s2 s1 hrun
          exact ⟨fun h => ha2 (ha h), fun h => hp2 (hp h)⟩

/-- C7: over every sequence of calls of the operations defined in the header,
`_has_app_classes` and `_has_platform_classes`, once true, are true in every
later state; `set_has_app_classes` makes the first true and
`set_has_platform_classes` the second; so `has_platform_or_app_classes()`
never goes from true to false. -/
theorem C7_summary_flags_monotone (b : Build) (ops : List Op) (s s1 : State)
    (hrun : run b ops s = some s1) :
    (s._has_app_classes = true → s1._has_app_classes = true) ∧
    (s._has_platform_classes = true → s1._has_platform_classes = true) ∧
    (has_platform_or_app_classes s = true →
      has_platform_or_app_classes s1 = true) ∧
    (set_has_app_classes s)._has_app_classes = true ∧
    (set_has_platform_classes s)._has_platform_classes = true ∧
    step b .set_has_app_classes s = some (set_has_app_classes s) ∧
    step b .set_has_platform_classes s = some (set_has_platform_classes s) := by
  obtain ⟨ha, hp⟩ := run_flags_mono b ops s s1 hrun
  refine ⟨ha, hp, ?_, rfl, rfl, rfl, rfl⟩
  intro h
  simp only [has_platform_or_app_classes, Bool.or_eq_true] at h ⊢
  rcases h with h | h
  · exact Or.inl (ha h)
  · exact Or.inr (hp h)

/-- C7 at a concrete sequence: the flag set by `set_has_app_classes` survives
two setter calls, an append, and the construction, use and destruction of a
`Context`. -/
theorem C7_summary_flags_monotone_witness :
    (set_has_app_classes dump_state)._has_app_classes = true ∧
    (append_boot_classpath cds_debug_build example_entry
        (init_app_module_paths_start_index 4
          (init_paths_start_index 2
            (set_has_app_classes dump_state))))._has_app_classes = true :=
  ⟨rfl,
    (C7_summary_flags_monotone cds_debug_build
      [.init_paths_start_index 2, .init_app_module_paths_start_index 4,
       .Context_new "Foo" "foo.jar",
       .Context_should_verify { _class_name := "Foo", _file_name := "foo.jar" } 3,
       .Context_delete { _class_name := "Foo", _file_name := "foo.jar" },
       .append_boot_classpath example_entry]
      (set_has_app_classes dump_state)
      (append_boot_classpath cds_debug_build example_entry
        (init_app_module_paths_start_index 4
          (init_paths_start_index 2 (set_has_app_classes dump_state))))
      rfl).1 rfl⟩

/-! ## C8: append_boot_classpath -/

/-- C8, as worded, fails in a build without CDS: the text that clears
`UseAppCDS` and issues the warning is inside `#if INCLUDE_CDS`, so with
`UseAppCDS` true before the call the flag is still true afterwards and no
warning has been recorded. -/
theorem C8_counterexample :
    no_cds_build.INCLUDE_CDS = false ∧
    app_cds_flag_only_state.UseAppCDS = true ∧
    step no_cds_build (.append_boot_classpath example_entry)
        app_cds_flag_only_state =
      some (append_boot_classpath no_cds_build example_entry
        app_cds_flag_only_state) ∧
    (append_boot_classpath no_cds_build example_entry
        app_cds_flag_only_state).UseAppCDS = true ∧
    (append_boot_classpath no_cds_build example_entry
        app_cds_flag_only_state).warnings = app_cds_flag_only_state.warnings := by
  refine ⟨rfl, rfl, rfl, rfl, rfl⟩

/-- C8, amended: `append_boot_classpath(entry)` never fails, appends `entry` to
the boot append entries, and never turns `UseAppCDS` on.  In a build with CDS
it ends with `UseAppCDS` false, and a warning is recorded if and only if the
flag was true before the call; in a build without CDS it leaves `UseAppCDS`
and the recorded warnings as they were. -/
theorem C8_append_boot_classpath (b : Build) (entry : ClassPathEntry)
    (s : State) :
    step b (.append_boot_classpath entry) s =
      some (append_boot_classpath b entry s) ∧
    (append_boot_classpath b entry s).boot_append_entries =
      s.boot_append_entries ++ [entry] ∧
    ((append_boot_classpath b entry s).UseAppCDS = true → s.UseAppCDS = true) ∧
    (b.INCLUDE_CDS = true →
      (append_boot_classpath b entry s).UseAppCDS = false ∧
      (append_boot_classpath b entry s).warnings =
        (if s.UseAppCDS then s.warnings ++ [boot_append_warning]
         else s.warnings) ∧
      ((append_boot_classpath b entry s).warnings ≠ s.warnings ↔
        s.UseAppCDS = true)) ∧
    (b.INCLUDE_CDS = false →
      (append_boot_classpath b entry s).UseAppCDS = s.UseAppCDS ∧
      (append_boot_classpath b entry s).warnings = s.warnings) := by
  cases hb : b.INCLUDE_CDS <;> cases hu : s.UseAppCDS <;>
    simp [step, append_boot_classpath, add_to_boot_append_entries, warning,
      hb, hu]

/-- C8 (amended) at a concrete input: in a build with CDS, with `UseAppCDS`
on, the call switches the flag off and records the warning. -/
theorem C8_append_boot_classpath_witness :
    (append_boot_classpath cds_debug_build example_entry app_cds_state).UseAppCDS =
      false ∧
    (append_boot_classpath cds_debug_build example_entry app_cds_state).warnings =
      (if app_cds_state.UseAppCDS then
        app_cds_state.warnings ++ [boot_append_warning]
       else app_cds_state.warnings) ∧
    ((append_boot_classpath cds_debug_build example_entry
        app_cds_state).warnings ≠ app_cds_state.warnings ↔
      app_cds_state.UseAppCDS = true) :=
  (C8_append_boot_classpath cds_debug_build example_entry app_cds_state).2.2.2.1
    rfl

/-! ## C9: verification is required exactly off the boot segment -/

/-- C9: in a build with CDS (the build in which `is_boot_classpath` is
declared), for every index and every state `should_verify(i)` is the negation
of `is_boot_classpath(i)`, so exactly one of the two holds. -/
theorem C9_should_verify_not_boot (b : Build) (ctx : Context) (s : State)
    (i : Int) (hcds : b.INCLUDE_CDS = true) :
    Context.should_verify b ctx s i = !is_boot_classpath s i ∧
    ((is_boot_classpath s i = true ∧ Context.should_verify b ctx s i = false) ∨
     (is_boot_classpath s i = false ∧ Context.should_verify b ctx s i = true)) := by
  by_cases h : i < s._app_class_paths_start_index
  · have h1 : ¬ s._app_class_paths_start_index ≤ i := by omega
    simp [Context.should_verify, is_boot_classpath, hcds, h, h1]
  · have h1 : s._app_class_paths_start_index ≤ i := by omega
    simp [Context.should_verify, is_boot_classpath, hcds, h, h1]

/-- C9 at a concrete input: cut point `3`, index `2` is a boot index and is not
verified. -/
theorem C9_should_verify_not_boot_witness :
    Context.should_verify cds_debug_build
        { _class_name := "Foo", _file_name := "foo.jar" }
        (init_paths_start_index 3 dump_state) 2 =
      !is_boot_classpath (init_paths_start_index 3 dump_state) 2 :=
  (C9_should_verify_not_boot cds_debug_build
    { _class_name := "Foo", _file_name := "foo.jar" }
    (init_paths_start_index 3 dump_state) 2 rfl).1

/-! ## C10: the two cut points are independent -/

/-- C10: `init_paths_start_index(v)` sets `_app_class_paths_start_index` to `v`
and changes nothing else; `init_app_module_paths_start_index(v)` sets
`_app_module_paths_start_index` to `v` and changes nothing else; so
`is_boot_classpath` and `should_verify` do not depend on the module cut
point. -/
theorem C10_cut_points_independent (b : Build) (ctx : Context) (v : Int)
    (s : State) :
    init_paths_start_index v s =
      { s with _app_class_paths_start_index := v } ∧
    app_class_paths_start_index (init_paths_start_index v s) = v ∧
    app_module_paths_start_index (init_paths_start_index v s) =
      app_module_paths_start_index s ∧
    (init_paths_start_index v s)._has_app_classes = s._has_app_classes ∧
    (init_paths_start_index v s)._has_platform_classes =
      s._has_platform_classes ∧
    (init_paths_start_index v s).UseAppCDS = s.UseAppCDS ∧
    init_app_module_paths_start_index v s =
      { s with _app_module_paths_start_index := v } ∧
    app_module_paths_start_index (init_app_module_paths_start_index v s) = v ∧
    app_class_paths_start_index (init_app_module_paths_start_index v s) =
      app_class_paths_start_index s ∧
    (init_app_module_paths_start_index v s)._has_app_classes =
      s._has_app_classes ∧
    (init_app_module_paths_start_index v s)._has_platform_classes =
      s._has_platform_classes ∧
    (init_app_module_paths_start_index v s).UseAppCDS = s.UseAppCDS ∧
    (∀ i : Int, is_boot_classpath (init_app_module_paths_start_index v s) i =
      is_boot_classpath s i) ∧
    (∀ i : Int,
      Context.should_verify b ctx (init_app_module_paths_start_index v s) i =
        Context.should_verify b ctx s i) := by
  refine ⟨rfl, rfl, rfl, rfl, rfl, rfl, rfl, rfl, rfl, rfl, rfl, rfl,
    fun _ => rfl, fun _ => rfl⟩

end ClassLoaderExt
